import Mathlib

/-!
Shallow embedding of the billing/subscription backend
(`src/backend/src/services/stripe.service.ts`,
`src/backend/src/services/plans.service.ts`,
`src/backend/src/routes/plans.routes.ts`,
`src/backend/src/routes/billing.routes.ts`) together with the parts of the
persisted schema (`src/backend/src/db/schema`) that the verified claims
touch.

Conventions of the embedding:
* JavaScript `Date` values and unix timestamps are `Nat`.
* JavaScript numbers used as money amounts are `Int` (always integral cents
  in this codebase).
* Nullable columns / optional fields are `Option _`.
* `crypto.randomUUID()` and provider-assigned object ids are modelled by
  counters threaded through the state (`uuidCounter`, `nextId`); a fresh id
  is a fixed prefix followed by the counter's decimal representation.
* A JavaScript `throw` is `Except.error` carrying the message; handlers
  whose bodies swallow exceptions in `try/catch` return normally on those
  paths, exactly as the source does.
* Drizzle's `findFirst(where eq ...)` is `List.find?`, `insert` appends,
  and `update ... where eq` maps the update over every matching row.
-/

/-- JS truthiness of a `string | null` value: `null` and `""` are falsy. -/
def truthyStr : Option String → Bool
  | none => false
  | some s => !(s == "")

/-- JS `x || d` for `x : string | null` with a string default `d`. -/
def jsOrStr (x : Option String) (d : String) : String :=
  match x with
  | none => d
  | some s => if s == "" then d else s

/-- JS `x || null` for `x : string | null`: collapses `""` to `null`. -/
def jsOrNullStr (x : Option String) : Option String :=
  match x with
  | none => none
  | some s => if s == "" then none else some s

/-- JS `x || null` for `x : number | null`: collapses `0` to `null`. -/
def jsOrNullInt (x : Option Int) : Option Int :=
  match x with
  | none => none
  | some v => if v == 0 then none else some v

/-- Drizzle `update ... set f ... where p`: applies `f` to every row
matching `p`, leaving other rows in place. -/
def updateWhere (p : α → Bool) (f : α → α) (l : List α) : List α :=
  l.map (fun r => if p r then f r else r)

/-- Row of the `users` table (the columns the billing code touches). -/
structure UserRow where
  id : String
  email : String
  stripeCustomerId : Option String
  deriving DecidableEq, Repr

/-- Row of the `plans` table. -/
structure PlanRow where
  id : String
  name : String
  slug : String
  description : Option String
  monthlyPrice : Int
  yearlyPrice : Int
  features : String
  maxUsers : Option Int
  maxTeamMembers : Option Int
  isPopular : Bool
  isActive : Bool
  sortOrder : Int
  stripePriceIdMonthly : Option String
  stripePriceIdYearly : Option String
  createdAt : Nat
  updatedAt : Nat
  deriving DecidableEq, Repr

/-- Row of the `subscriptions` table. -/
structure SubscriptionRow where
  id : String
  userId : String
  stripeSubscriptionId : String
  status : String
  plan : String
  planId : Option String
  billingInterval : Option String
  currentPeriodStart : Option Nat
  currentPeriodEnd : Option Nat
  cancelAtPeriodEnd : Bool
  createdAt : Nat
  updatedAt : Nat
  deriving DecidableEq, Repr

/-- Row of the `invoices` table. -/
structure InvoiceRow where
  id : String
  userId : String
  stripeInvoiceId : String
  amountPaid : Int
  currency : String
  status : String
  invoicePdfUrl : Option String
  periodStart : Option Nat
  periodEnd : Option Nat
  createdAt : Nat
  deriving DecidableEq, Repr

/-- The local relational database (the tables the claims touch). -/
structure DB where
  users : List UserRow
  plans : List PlanRow
  subscriptions : List SubscriptionRow
  invoices : List InvoiceRow
  deriving DecidableEq, Repr

/-- A Stripe customer object as seen by the backend. -/
structure StripeCustomer where
  id : String
  email : String
  metadataUserId : Option String
  deleted : Bool
  deriving DecidableEq, Repr

/-- A Stripe product object. -/
structure StripeProduct where
  id : String
  name : String
  description : Option String
  active : Bool
  metadataPlanId : Option String
  deriving DecidableEq, Repr

/-- A Stripe price object. -/
structure StripePrice where
  id : String
  product : String
  unitAmount : Int
  currency : String
  recurringInterval : String
  metadataPlanId : Option String
  metadataInterval : Option String
  deriving DecidableEq, Repr

/-- A Stripe subscription object. The first line item's price id and its
recurring interval are carried inline (`items.data[0]?.price`). -/
structure StripeSubscription where
  id : String
  customer : String
  status : String
  created : Nat
  priceId : Option String
  priceRecurringInterval : Option String
  currentPeriodStart : Nat
  currentPeriodEnd : Nat
  cancelAtPeriodEnd : Bool
  deriving DecidableEq, Repr

/-- The external payment-provider state. `checkoutSessions` counts created
checkout sessions; `nextId` feeds provider-assigned object ids. -/
structure StripeState where
  customers : List StripeCustomer
  products : List StripeProduct
  prices : List StripePrice
  subscriptions : List StripeSubscription
  checkoutSessions : Nat
  nextId : Nat
  deriving DecidableEq, Repr

/-- The whole world: local DB, external provider (`none` = the
`STRIPE_SECRET_KEY` env var is unset, so the `stripe` client is `null`),
the current wall-clock time, and the uuid supply. -/
structure World where
  db : DB
  stripe : Option StripeState
  now : Nat
  uuidCounter : Nat
  deriving DecidableEq, Repr

/-- `crypto.randomUUID()`: the `n`-th fresh uuid. -/
def uuid (n : Nat) : String := "uuid-" ++ Nat.repr n

/-- A provider-assigned fresh object id with the given prefix. -/
def stripeId (pre : String) (n : Nat) : String := pre ++ Nat.repr n

/-- The `Stripe.Invoice` payload of an invoice webhook event. -/
structure StripeInvoice where
  id : String
  customer : Option String
  amountPaid : Int
  currency : String
  status : Option String
  invoicePdf : Option String
  periodStart : Option Nat
  periodEnd : Option Nat
  subscription : Option String
  deriving DecidableEq, Repr

/-- The `Stripe.Checkout.Session` payload of a `checkout.session.completed`
event (the fields the handler reads). -/
structure CheckoutSessionObj where
  metadataUserId : Option String
  metadataPlanId : Option String
  metadataBillingInterval : Option String
  subscription : Option String
  deriving DecidableEq, Repr

/-- The invoice row inserted by `handleInvoiceCreated`: status derived
from the event (`invoice.status || 'draft'`), fresh local uuid, created-at
stamped with the current time. -/
def invoiceRowOfEvent (inv : StripeInvoice) (userId : String) (w : World) : InvoiceRow :=
  { id := uuid w.uuidCounter
    userId := userId
    stripeInvoiceId := inv.id
    amountPaid := inv.amountPaid
    currency := inv.currency
    status := jsOrStr inv.status "draft"
    invoicePdfUrl := jsOrNullStr inv.invoicePdf
    periodStart := inv.periodStart
    periodEnd := inv.periodEnd
    createdAt := w.now }

/-- `StripeService.handleInvoiceCreated`: inserts an invoice row for a not
previously seen external invoice id, resolving the owning user through the
external customer's metadata; every failure inside the `try` block is
caught and logged, leaving the state unchanged. -/
def handleInvoiceCreated (inv : StripeInvoice) (w : World) : Except String World :=
  match w.stripe with
  | none => .error "Stripe is not configured. Set STRIPE_SECRET_KEY in environment."
  | some st =>
    match inv.customer with
    | none => .ok w
    | some custId =>
      match st.customers.find? (fun c => c.id == custId) with
      | none => .ok w
      | some cust =>
        if cust.deleted then .ok w
        else
          match cust.metadataUserId with
          | none => .ok w
          | some userId =>
            match w.db.invoices.find? (fun r => r.stripeInvoiceId == inv.id) with
            | some _ => .ok w
            | none =>
              let row := invoiceRowOfEvent inv userId w
              .ok { w with
                      db := { w.db with invoices := w.db.invoices ++ [row] }
                      uuidCounter := w.uuidCounter + 1 }

/-- Second half of `handleInvoicePaymentSucceeded`: when the invoice is tied
to a subscription, re-pull it from the provider and refresh the local row's
status and period bounds; all errors are caught and logged. -/
def refreshSubscriptionAfterPayment (st : StripeState) (subId : String) (w : World) : World :=
  match st.subscriptions.find? (fun s => s.id == subId) with
  | none => w
  | some sub =>
    match w.db.subscriptions.find? (fun r => r.stripeSubscriptionId == sub.id) with
    | none => w
    | some existingSub =>
      let subs' := updateWhere (fun r => r.id == existingSub.id)
        (fun r => { r with
            status := sub.status
            currentPeriodStart := some sub.currentPeriodStart
            currentPeriodEnd := some sub.currentPeriodEnd
            cancelAtPeriodEnd := sub.cancelAtPeriodEnd
            updatedAt := w.now })
        w.db.subscriptions
      { w with db := { w.db with subscriptions := subs' } }

/-- Second half of `handleInvoicePaymentFailed`: refresh only the local
subscription's status from the provider; all errors caught and logged. -/
def refreshSubscriptionAfterFailure (st : StripeState) (subId : String) (w : World) : World :=
  match st.subscriptions.find? (fun s => s.id == subId) with
  | none => w
  | some sub =>
    match w.db.subscriptions.find? (fun r => r.stripeSubscriptionId == sub.id) with
    | none => w
    | some existingSub =>
      let subs' := updateWhere (fun r => r.id == existingSub.id)
        (fun r => { r with status := sub.status, updatedAt := w.now })
        w.db.subscriptions
      { w with db := { w.db with subscriptions := subs' } }

/-- `StripeService.handleInvoicePaymentSucceeded`: if no local row carries
the event's external invoice id, fall back to the invoice-created path;
otherwise mark the found row paid. Then, for subscription invoices,
refresh the local subscription. -/
def handleInvoicePaymentSucceeded (inv : StripeInvoice) (w : World) : Except String World :=
  match w.stripe with
  | none => .error "Stripe is not configured. Set STRIPE_SECRET_KEY in environment."
  | some st =>
    let step1 : Except String World :=
      match w.db.invoices.find? (fun r => r.stripeInvoiceId == inv.id) with
      | none => handleInvoiceCreated inv w
      | some existingInvoice =>
        let invs' := updateWhere (fun r => r.id == existingInvoice.id)
          (fun r => { r with
              status := "paid"
              amountPaid := inv.amountPaid
              invoicePdfUrl := jsOrNullStr inv.invoicePdf })
          w.db.invoices
        .ok { w with db := { w.db with invoices := invs' } }
    match step1 with
    | .error e => .error e
    | .ok w1 =>
      match inv.subscription with
      | none => .ok w1
      | some subId => .ok (refreshSubscriptionAfterPayment st subId w1)

/-- `StripeService.handleInvoicePaymentFailed`: if no local row carries the
event's external invoice id, fall back to the invoice-created path;
otherwise overwrite the found row's status with the provider's reported
status (default `"open"`). Then, for subscription invoices, refresh the
local subscription's status. -/
def handleInvoicePaymentFailed (inv : StripeInvoice) (w : World) : Except String World :=
  match w.stripe with
  | none => .error "Stripe is not configured. Set STRIPE_SECRET_KEY in environment."
  | some st =>
    let step1 : Except String World :=
      match w.db.invoices.find? (fun r => r.stripeInvoiceId == inv.id) with
      | none => handleInvoiceCreated inv w
      | some existingInvoice =>
        let invs' := updateWhere (fun r => r.id == existingInvoice.id)
          (fun r => { r with status := jsOrStr inv.status "open" })
          w.db.invoices
        .ok { w with db := { w.db with invoices := invs' } }
    match step1 with
    | .error e => .error e
    | .ok w1 =>
      match inv.subscription with
      | none => .ok w1
      | some subId => .ok (refreshSubscriptionAfterFailure st subId w1)

/-- `StripeService.handleSubscriptionDeleted`: if a local row carries the
event's external subscription id, set its status to `canceled` (stamping
`updatedAt`); otherwise do nothing. -/
def handleSubscriptionDeleted (sub : StripeSubscription) (w : World) : World :=
  match w.db.subscriptions.find? (fun r => r.stripeSubscriptionId == sub.id) with
  | none => w
  | some existingSub =>
    let subs' := updateWhere (fun r => r.id == existingSub.id)
      (fun r => { r with status := "canceled", updatedAt := w.now })
      w.db.subscriptions
    { w with db := { w.db with subscriptions := subs' } }

/-- `StripeService.handleSubscriptionUpdated`: refresh status, period
bounds, cancel flag and billing interval from the event, and re-resolve the
plan by matching the subscription's current price id against every plan's
monthly/yearly price ids. -/
def handleSubscriptionUpdated (sub : StripeSubscription) (w : World) : World :=
  match w.db.subscriptions.find? (fun r => r.stripeSubscriptionId == sub.id) with
  | none => w
  | some existingSub =>
    let billingInterval : String :=
      if sub.priceRecurringInterval == some "year" then "yearly" else "monthly"
    let planDetails : Option PlanRow :=
      match jsOrNullStr sub.priceId with
      | none => none
      | some pid =>
        w.db.plans.find? (fun p =>
          p.stripePriceIdMonthly == some pid || p.stripePriceIdYearly == some pid)
    let base : SubscriptionRow → SubscriptionRow := fun r =>
      { r with
          status := sub.status
          currentPeriodStart := some sub.currentPeriodStart
          currentPeriodEnd := some sub.currentPeriodEnd
          cancelAtPeriodEnd := sub.cancelAtPeriodEnd
          billingInterval := some billingInterval
          updatedAt := w.now }
    let apply : SubscriptionRow → SubscriptionRow :=
      match planDetails with
      | none => base
      | some p => fun r => { base r with plan := p.slug, planId := some p.id }
    let subs' := updateWhere (fun r => r.id == existingSub.id) apply w.db.subscriptions
    { w with db := { w.db with subscriptions := subs' } }

/-- `StripeService.handleCheckoutCompleted`: requires `userId`, `planId`
and `billingInterval` in the session metadata; if any is absent, logs and
returns without writing. Otherwise resolves the plan and the provider
subscription and upserts the local subscription row. -/
def handleCheckoutCompleted (session : CheckoutSessionObj) (w : World) : Except String World :=
  match w.stripe with
  | none => .error "Stripe is not configured. Set STRIPE_SECRET_KEY in environment."
  | some st =>
    if !(truthyStr session.metadataUserId) ||
       !(truthyStr session.metadataPlanId) ||
       !(truthyStr session.metadataBillingInterval) then
      .ok w
    else
      let userId := (session.metadataUserId).getD ""
      let planId := (session.metadataPlanId).getD ""
      let billingInterval := (session.metadataBillingInterval).getD ""
      match w.db.plans.find? (fun p => p.id == planId) with
      | none => .ok w
      | some planDetails =>
        match st.subscriptions.find? (fun s => s.id == (session.subscription).getD "") with
        | none => .error "No such subscription"
        | some sub =>
          match w.db.subscriptions.find? (fun r => r.stripeSubscriptionId == sub.id) with
          | some existingSub =>
            let subs' := updateWhere (fun r => r.id == existingSub.id)
              (fun r => { r with
                  status := sub.status
                  plan := planDetails.slug
                  planId := some planId
                  billingInterval := some billingInterval
                  currentPeriodStart := some sub.currentPeriodStart
                  currentPeriodEnd := some sub.currentPeriodEnd
                  cancelAtPeriodEnd := sub.cancelAtPeriodEnd
                  updatedAt := w.now })
              w.db.subscriptions
            .ok { w with db := { w.db with subscriptions := subs' } }
          | none =>
            let row : SubscriptionRow :=
              { id := uuid w.uuidCounter
                userId := userId
                stripeSubscriptionId := sub.id
                status := sub.status
                plan := planDetails.slug
                planId := some planId
                billingInterval := some billingInterval
                currentPeriodStart := some sub.currentPeriodStart
                currentPeriodEnd := some sub.currentPeriodEnd
                cancelAtPeriodEnd := sub.cancelAtPeriodEnd
                createdAt := w.now
                updatedAt := w.now }
            .ok { w with
                    db := { w.db with subscriptions := w.db.subscriptions ++ [row] }
                    uuidCounter := w.uuidCounter + 1 }

/-- `PlansService.createPlan` input (`CreatePlanInput`). -/
structure CreatePlanInput where
  name : String
  slug : String
  description : Option String
  monthlyPrice : Int
  yearlyPrice : Int
  features : List String
  maxUsers : Option Int
  maxTeamMembers : Option Int
  isPopular : Option Bool
  sortOrder : Option Int
  deriving DecidableEq, Repr

/-- JS `x || 0` for `x : number | undefined`. -/
def jsOrZeroInt (x : Option Int) : Int :=
  match x with
  | none => 0
  | some v => v

/-- `JSON.stringify` on a plain string array (no escaping occurs in the
seeded feature strings). -/
def featuresJson (l : List String) : String :=
  "[" ++ String.intercalate "," (l.map (fun s => "\"" ++ s ++ "\"")) ++ "]"

/-- `stripe.products.search` by the `plan_id` metadata tag followed by
update-in-place or create (`PlansService.syncPlanWithStripe`, product
half). Returns the product id to hang prices on and the provider state. -/
def syncProductStep (pid : String) (plan : PlanRow) (st : StripeState) : String × StripeState :=
  match st.products.find? (fun pr => pr.metadataPlanId == some pid) with
  | some pr =>
    let products' := updateWhere (fun q => q.id == pr.id)
      (fun q => { q with
          name := plan.name
          description := jsOrNullStr plan.description
          active := plan.isActive })
      st.products
    (pr.id, { st with products := products' })
  | none =>
    let newId := stripeId "prod_" st.nextId
    let newProduct : StripeProduct :=
      { id := newId
        name := plan.name
        description := jsOrNullStr plan.description
        active := true
        metadataPlanId := some pid }
    (newId, { st with products := st.products ++ [newProduct], nextId := st.nextId + 1 })

/-- `stripe.prices.create` for one interval of a plan. -/
def createPriceStep (productId pid : String) (amount : Int) (interval metaInterval : String)
    (st : StripeState) : String × StripeState :=
  let newId := stripeId "price_" st.nextId
  let newPrice : StripePrice :=
    { id := newId
      product := productId
      unitAmount := amount
      currency := "usd"
      recurringInterval := interval
      metadataPlanId := some pid
      metadataInterval := some metaInterval }
  (newId, { st with prices := st.prices ++ [newPrice], nextId := st.nextId + 1 })

/-- The `if (!priceId) create` guard of `syncPlanWithStripe`: keep a truthy
recorded price id untouched, otherwise create a price. -/
def priceFor (recorded : Option String) (mk : StripeState → String × StripeState)
    (st : StripeState) : String × StripeState :=
  if truthyStr recorded then (recorded.getD "", st) else mk st

/-- The provider-facing half of `syncPlanWithStripe` for one plan: sync
the product, then for each interval keep a truthy recorded price id or
create the missing price. Returns the monthly price id, the yearly price
id, and the resulting provider state. -/
def syncSteps (pid : String) (plan : PlanRow) (st : StripeState) :
    String × String × StripeState :=
  let prodStep := syncProductStep pid plan st
  let monthStep := priceFor plan.stripePriceIdMonthly
    (createPriceStep prodStep.1 pid plan.monthlyPrice "month" "monthly") prodStep.2
  let yearStep := priceFor plan.stripePriceIdYearly
    (createPriceStep prodStep.1 pid plan.yearlyPrice "year" "yearly") monthStep.2
  (monthStep.1, yearStep.1, yearStep.2)

/-- `PlansService.syncPlanWithStripe`: throws when the provider is not
configured, returns `none` when the plan id is unknown, otherwise syncs the
product, creates any missing price per interval, and persists both price
ids onto the plan. Returns the freshly re-read plan row. -/
def syncPlanWithStripe (pid : String) (w : World) : Except String (Option PlanRow × World) :=
  match w.stripe with
  | none => .error "Stripe is not configured"
  | some st =>
    match w.db.plans.find? (fun p => p.id == pid) with
    | none => .ok (none, w)
    | some plan =>
      let steps := syncSteps pid plan st
      let plans' := updateWhere (fun p => p.id == pid)
        (fun p => { p with
            stripePriceIdMonthly := some steps.1
            stripePriceIdYearly := some steps.2.1
            updatedAt := w.now })
        w.db.plans
      let w' := { w with db := { w.db with plans := plans' }, stripe := some steps.2.2 }
      .ok (plans'.find? (fun p => p.id == pid), w')

/-- Route `POST /plans/:id/sync-stripe`: maps a thrown error to 500 with
the error's message, a `null` plan to 404 `Plan not found`, and success to
200. -/
def syncStripeRoute (pid : String) (w : World) : Nat × String × World :=
  match syncPlanWithStripe pid w with
  | .error e => (500, e, w)
  | .ok (none, w') => (404, "Plan not found", w')
  | .ok (some _, w') => (200, "Plan synced with Stripe successfully", w')

/-- The plan row inserted by `createPlan`: JS-truthiness defaults applied
to the optional inputs, no external price ids yet, both timestamps set to
the creation time. -/
def planRowOfInput (input : CreatePlanInput) (id : String) (now : Nat) : PlanRow :=
  { id := id
    name := input.name
    slug := input.slug
    description := jsOrNullStr input.description
    monthlyPrice := input.monthlyPrice
    yearlyPrice := input.yearlyPrice
    features := featuresJson input.features
    maxUsers := jsOrNullInt input.maxUsers
    maxTeamMembers := jsOrNullInt input.maxTeamMembers
    isPopular := input.isPopular.getD false
    isActive := true
    sortOrder := jsOrZeroInt input.sortOrder
    stripePriceIdMonthly := none
    stripePriceIdYearly := none
    createdAt := now
    updatedAt := now }

/-- `PlansService.createPlan`: inserts the row, then (when asked and when
the provider is configured) syncs it, swallowing sync failures. -/
def createPlan (input : CreatePlanInput) (syncWithStripe : Bool) (w : World) : World :=
  let id := uuid w.uuidCounter
  let row := planRowOfInput input id w.now
  let w1 := { w with
                db := { w.db with plans := w.db.plans ++ [row] }
                uuidCounter := w.uuidCounter + 1 }
  if syncWithStripe && w1.stripe.isSome then
    match syncPlanWithStripe id w1 with
    | .ok x => x.2
    | .error _ => w1
  else w1

/-- Insertion step of the stable descending-by-`created` sort used by
`cleanupDuplicateSubscriptions` (`sort((a, b) => b.created - a.created)`). -/
def insertByCreatedDesc (s : StripeSubscription) :
    List StripeSubscription → List StripeSubscription
  | [] => [s]
  | t :: ts => if t.created ≤ s.created then s :: t :: ts else t :: insertByCreatedDesc s ts

/-- Stable sort of subscriptions, most recently created first. -/
def sortByCreatedDesc (l : List StripeSubscription) : List StripeSubscription :=
  l.foldr insertByCreatedDesc []

/-- `StripeService.cleanupDuplicateSubscriptions`: among the customer's
active subscriptions, keep the most recently created and cancel the rest;
with one or zero active subscriptions it does nothing. Acts only on
provider state. -/
def cleanupDuplicateSubscriptions (cid : String) (st : StripeState) : StripeState :=
  let active := st.subscriptions.filter (fun s => s.customer == cid && s.status == "active")
  if active.length ≤ 1 then st
  else
    match sortByCreatedDesc active with
    | [] => st
    | _keep :: toCancel =>
      let cancelIds := toCancel.map (fun s => s.id)
      let subs' := updateWhere (fun s => cancelIds.contains s.id)
        (fun s => { s with status := "canceled" }) st.subscriptions
      { st with subscriptions := subs' }

/-- `StripeService.getActiveStripeSubscription`: first active subscription
of the customer in the provider's listing order, if any. -/
def getActiveStripeSubscription (cid : String) (st : StripeState) : Option StripeSubscription :=
  (st.subscriptions.filter (fun s => s.customer == cid && s.status == "active")).head?

/-- `StripeService.getOrCreateCustomer`: reuse the user's recorded customer
id when truthy, otherwise create a provider customer tagged with the user
id and record it on the user row. -/
def getOrCreateCustomer (userId email : String) (w : World) : Except String (String × World) :=
  match w.stripe with
  | none => .error "Stripe is not configured. Set STRIPE_SECRET_KEY in environment."
  | some st =>
    let recorded : Option String :=
      match w.db.users.find? (fun u => u.id == userId) with
      | some u => u.stripeCustomerId
      | none => none
    if truthyStr recorded then .ok (recorded.getD "", w)
    else
      let cid := stripeId "cus_" st.nextId
      let newCustomer : StripeCustomer :=
        { id := cid, email := email, metadataUserId := some userId, deleted := false }
      let st1 := { st with
                     customers := st.customers ++ [newCustomer]
                     nextId := st.nextId + 1 }
      let users' := updateWhere (fun u => u.id == userId)
        (fun u => { u with stripeCustomerId := some cid }) w.db.users
      .ok (cid, { w with stripe := some st1, db := { w.db with users := users' } })

/-- `CreateCheckoutSessionParams`. -/
structure CheckoutParams where
  userId : String
  userEmail : String
  planId : String
  billingInterval : String
  deriving DecidableEq, Repr

/-- `StripeService.createCheckoutSession`: resolves plan and price, gets or
creates the customer, and refuses with the `EXISTING_SUBSCRIPTION` signal
(after duplicate cleanup) when the customer already has an active provider
subscription; otherwise creates a checkout session and returns its url.
The returned world keeps every side effect performed before a throw. -/
def createCheckoutSession (p : CheckoutParams) (w : World) : Except String String × World :=
  match w.stripe with
  | none => (.error "Stripe is not configured. Set STRIPE_SECRET_KEY in environment.", w)
  | some _ =>
    match w.db.plans.find? (fun pl => pl.id == p.planId) with
    | none => (.error "Plan not found", w)
    | some plan =>
      let priceId :=
        if p.billingInterval == "monthly" then plan.stripePriceIdMonthly
        else plan.stripePriceIdYearly
      if !(truthyStr priceId) then
        (.error "Stripe price not configured. Please sync the plan with Stripe first.", w)
      else
        match getOrCreateCustomer p.userId p.userEmail w with
        | .error e => (.error e, w)
        | .ok cw =>
          match cw.2.stripe with
          | none => (.error "Stripe is not configured. Set STRIPE_SECRET_KEY in environment.", cw.2)
          | some st1 =>
            match getActiveStripeSubscription cw.1 st1 with
            | some _ =>
              let st2 := cleanupDuplicateSubscriptions cw.1 st1
              (.error "EXISTING_SUBSCRIPTION", { cw.2 with stripe := some st2 })
            | none =>
              let url := "https://checkout.stripe/" ++ stripeId "cs_" st1.nextId
              let st2 := { st1 with
                             checkoutSessions := st1.checkoutSessions + 1
                             nextId := st1.nextId + 1 }
              (.ok url, { cw.2 with stripe := some st2 })

/-- Ascending stable insertion by `sortOrder` (`sort((a, b) => a.sortOrder - b.sortOrder)`). -/
def insertBySortOrderAsc (p : PlanRow) : List PlanRow → List PlanRow
  | [] => [p]
  | q :: qs => if p.sortOrder ≤ q.sortOrder then p :: q :: qs else q :: insertBySortOrderAsc p qs

/-- `PlansService.getAllPlans`: every plan, sort-order ascending. -/
def getAllPlans (w : World) : List PlanRow :=
  w.db.plans.foldr insertBySortOrderAsc []

/-- The fixed `Starter` seed plan. -/
def starterSeed : CreatePlanInput :=
  { name := "Starter"
    slug := "starter"
    description := some "Perfect for individuals and small projects"
    monthlyPrice := 1900
    yearlyPrice := 18200
    features := ["Up to 1,000 users", "Basic analytics", "Email support", "1 team member"]
    maxUsers := some 1000
    maxTeamMembers := some 1
    isPopular := some false
    sortOrder := some 1 }

/-- The fixed `Professional` seed plan. -/
def professionalSeed : CreatePlanInput :=
  { name := "Professional"
    slug := "professional"
    description := some "Best for growing businesses"
    monthlyPrice := 4900
    yearlyPrice := 47000
    features := ["Up to 10,000 users", "Advanced analytics", "Priority support",
                 "5 team members", "Custom integrations"]
    maxUsers := some 10000
    maxTeamMembers := some 5
    isPopular := some true
    sortOrder := some 2 }

/-- The fixed `Enterprise` seed plan. -/
def enterpriseSeed : CreatePlanInput :=
  { name := "Enterprise"
    slug := "enterprise"
    description := some "For large organizations"
    monthlyPrice := 9900
    yearlyPrice := 95000
    features := ["Unlimited users", "Enterprise analytics", "24/7 phone support",
                 "Unlimited team members", "Custom integrations", "SLA guarantee"]
    maxUsers := none
    maxTeamMembers := none
    isPopular := some false
    sortOrder := some 3 }

/-- `PlansService.seedDefaultPlans`: when any plan exists, do nothing;
otherwise insert the fixed starter/professional/enterprise trio without
provider sync. -/
def seedDefaultPlans (w : World) : World :=
  if (getAllPlans w).length > 0 then w
  else
    createPlan enterpriseSeed false
      (createPlan professionalSeed false
        (createPlan starterSeed false w))

/-! Shared lemmas about the list primitives of the embedding. -/

/-- Mapping a function that does not change a predicate's verdict commutes
with `find?`. -/
theorem find?_map_pres (q : α → Bool) (g : α → α) (hg : ∀ r, q (g r) = q r) :
    ∀ l : List α, (l.map g).find? q = (l.find? q).map g := by
  intro l
  induction l with
  | nil => rfl
  | cons a t ih =>
    by_cases h : q a
    · rw [List.map_cons, List.find?_cons_of_pos _ (by rw [hg]; exact h),
          List.find?_cons_of_pos _ h, Option.map_some']
    · rw [List.map_cons, List.find?_cons_of_neg _ (by rw [hg]; simpa using h),
          List.find?_cons_of_neg _ h, ih]

/-- A `find?` after an `updateWhere` whose update leaves the searched-for
key untouched returns the (possibly updated) row it found before. -/
theorem find?_updateWhere_of_pres (q p : α → Bool) (f : α → α)
    (hq : ∀ r, q (f r) = q r) (l : List α) :
    (updateWhere p f l).find? q = (l.find? q).map (fun r => if p r then f r else r) := by
  apply find?_map_pres
  intro r
  by_cases h : p r <;> simp [h, hq]

/-- The subscription refresh after a successful payment never touches the
`invoices` table. -/
theorem refreshSubscriptionAfterPayment_invoices (st : StripeState) (sid : String) (w : World) :
    (refreshSubscriptionAfterPayment st sid w).db.invoices = w.db.invoices := by
  unfold refreshSubscriptionAfterPayment
  split
  · rfl
  · split <;> rfl

/-- The subscription refresh after a failed payment never touches the
`invoices` table. -/
theorem refreshSubscriptionAfterFailure_invoices (st : StripeState) (sid : String) (w : World) :
    (refreshSubscriptionAfterFailure st sid w).db.invoices = w.db.invoices := by
  unfold refreshSubscriptionAfterFailure
  split
  · rfl
  · split <;> rfl

/-! Claim C10. -/

/-- C10: a `customer.subscription.deleted` event whose external
subscription id has no local row completes without error and performs no
write at all — `handleSubscriptionDeleted` returns the world unchanged. -/
theorem subscription_deleted_unknown_id_is_noop (sub : StripeSubscription) (w : World)
    (h : w.db.subscriptions.find? (fun r => r.stripeSubscriptionId == sub.id) = none) :
    handleSubscriptionDeleted sub w = w := by
  unfold handleSubscriptionDeleted
  rw [h]

/-- A plain subscription-deleted event payload used as a concrete input. -/
def c10Event : StripeSubscription :=
  { id := "sub_absent", customer := "cus_9", status := "canceled", created := 3
    priceId := none, priceRecurringInterval := none
    currentPeriodStart := 10, currentPeriodEnd := 20, cancelAtPeriodEnd := false }

/-- A world holding one unrelated subscription row. -/
def c10World : World :=
  { db := { users := []
            plans := []
            subscriptions := [{ id := "row1", userId := "u1",
                                stripeSubscriptionId := "sub_other", status := "active",
                                plan := "starter", planId := some "p1",
                                billingInterval := some "monthly",
                                currentPeriodStart := some 1, currentPeriodEnd := some 2,
                                cancelAtPeriodEnd := false, createdAt := 0, updatedAt := 0 }]
            invoices := [] }
    stripe := none, now := 5, uuidCounter := 0 }

/-- Witness for C10 at a concrete world whose only row carries a different
external subscription id. -/
theorem subscription_deleted_unknown_id_is_noop_witness :
    c10World.db.subscriptions.find?
      (fun r => r.stripeSubscriptionId == c10Event.id) = none ∧
    handleSubscriptionDeleted c10Event c10World = c10World :=
  ⟨by decide, subscription_deleted_unknown_id_is_noop c10Event c10World (by decide)⟩

/-! Claim C6. -/

/-- The local row used in the C6 scenario. -/
def c6Row : SubscriptionRow :=
  { id := "s-row", userId := "u1", stripeSubscriptionId := "sub_1", status := "active"
    plan := "starter", planId := some "p1", billingInterval := some "monthly"
    currentPeriodStart := some 1, currentPeriodEnd := some 2
    cancelAtPeriodEnd := false, createdAt := 0, updatedAt := 0 }

/-- A world holding exactly the C6 row, observed at time 5. -/
def c6World : World :=
  { db := { users := [], plans := [], subscriptions := [c6Row], invoices := [] }
    stripe := none, now := 5, uuidCounter := 0 }

/-- The deletion event targeting the C6 row. -/
def c6Event : StripeSubscription :=
  { id := "sub_1", customer := "cus_1", status := "canceled", created := 0
    priceId := none, priceRecurringInterval := none
    currentPeriodStart := 0, currentPeriodEnd := 0, cancelAtPeriodEnd := false }

/-- C6 counterexample: the handler rewrites `updatedAt` (0 becomes 5), so
the claim that timestamps are left untouched fails on the code. -/
theorem subscription_deleted_changes_updatedAt :
    c6Row.updatedAt = 0 ∧ c6World.now = 5 ∧
    (handleSubscriptionDeleted c6Event c6World).db.subscriptions.map
      (fun r => r.updatedAt) = [5] := by
  decide

/-- C6 (amended): deleting a subscription with a pre-existing local row
sets that row's status to `canceled` and stamps `updatedAt` with the
current time; every other field of the row, every other row, and every
other table are left untouched. -/
theorem subscription_deleted_sets_status_and_updatedAt_only
    (sub : StripeSubscription) (w : World) (row : SubscriptionRow)
    (h : w.db.subscriptions.find? (fun r => r.stripeSubscriptionId == sub.id) = some row) :
    (handleSubscriptionDeleted sub w).db.subscriptions.find?
        (fun r => r.stripeSubscriptionId == sub.id) =
      some { row with status := "canceled", updatedAt := w.now } ∧
    (handleSubscriptionDeleted sub w).db.users = w.db.users ∧
    (handleSubscriptionDeleted sub w).db.plans = w.db.plans ∧
    (handleSubscriptionDeleted sub w).db.invoices = w.db.invoices ∧
    (handleSubscriptionDeleted sub w).stripe = w.stripe ∧
    ∀ r ∈ w.db.subscriptions, (r.id == row.id) = false →
      r ∈ (handleSubscriptionDeleted sub w).db.subscriptions := by
  have e : handleSubscriptionDeleted sub w =
      { w with db := { w.db with subscriptions :=
          (updateWhere (fun r => r.id == row.id)
            (fun r => { r with status := "canceled", updatedAt := w.now })
            w.db.subscriptions) } } := by
    unfold handleSubscriptionDeleted
    rw [h]
  refine ⟨?_, by rw [e], by rw [e], by rw [e], by rw [e], ?_⟩
  · rw [e]
    show (updateWhere (fun r => r.id == row.id)
        (fun r => { r with status := "canceled", updatedAt := w.now })
        w.db.subscriptions).find? (fun r => r.stripeSubscriptionId == sub.id) = _
    rw [find?_updateWhere_of_pres (fun r => r.stripeSubscriptionId == sub.id)
          (fun r => r.id == row.id)
          (fun r => { r with status := "canceled", updatedAt := w.now })
          (fun r => rfl) w.db.subscriptions, h]
    simp
  · intro r hr hne
    rw [e]
    show r ∈ updateWhere (fun r => r.id == row.id)
        (fun r => { r with status := "canceled", updatedAt := w.now })
        w.db.subscriptions
    simp only [updateWhere, List.mem_map]
    exact ⟨r, hr, by simp [hne]⟩

/-- Witness for the amended C6 theorem at the concrete C6 scenario. -/
theorem subscription_deleted_sets_status_and_updatedAt_only_witness :
    c6World.db.subscriptions.find?
      (fun r => r.stripeSubscriptionId == c6Event.id) = some c6Row ∧
    (handleSubscriptionDeleted c6Event c6World).db.subscriptions.find?
        (fun r => r.stripeSubscriptionId == c6Event.id) =
      some { c6Row with status := "canceled", updatedAt := c6World.now } :=
  ⟨by decide,
   (subscription_deleted_sets_status_and_updatedAt_only c6Event c6World c6Row (by decide)).1⟩

/-! Claim C7. -/

/-- The `POST /stripe/webhook` route acknowledges with HTTP 200 whether
the dispatched handler returned normally or threw (the route catches the
error and still responds `received: true`). -/
def webhookAckStatus (r : Except String World) : Nat :=
  match r with
  | .ok _ => 200
  | .error _ => 200

/-- C7: a `checkout.session.completed` event missing any of `userId`,
`planId` or `billingInterval` in its session metadata makes the handler
log and return without any write — the world is returned unchanged — and
the webhook is still acknowledged with 200. -/
theorem checkout_completed_missing_metadata_is_noop
    (s : CheckoutSessionObj) (w : World) (st : StripeState)
    (hst : w.stripe = some st)
    (h : truthyStr s.metadataUserId = false ∨ truthyStr s.metadataPlanId = false ∨
         truthyStr s.metadataBillingInterval = false) :
    handleCheckoutCompleted s w = .ok w ∧
    webhookAckStatus (handleCheckoutCompleted s w) = 200 := by
  have hmain : handleCheckoutCompleted s w = .ok w := by
    unfold handleCheckoutCompleted
    rw [hst]
    rcases h with h | h | h <;> simp [h]
  exact ⟨hmain, by rw [hmain]; rfl⟩

/-- A session payload with no plan id in its metadata. -/
def c7Session : CheckoutSessionObj :=
  { metadataUserId := some "u1", metadataPlanId := none
    metadataBillingInterval := some "monthly", subscription := some "sub_1" }

/-- A configured world with an empty database. -/
def c7World : World :=
  { db := { users := [], plans := [], subscriptions := [], invoices := [] }
    stripe := some { customers := [], products := [], prices := [], subscriptions := []
                     checkoutSessions := 0, nextId := 0 }
    now := 0, uuidCounter := 0 }

/-- Witness for C7 at a concrete metadata-less session. -/
theorem checkout_completed_missing_metadata_is_noop_witness :
    truthyStr c7Session.metadataPlanId = false ∧
    handleCheckoutCompleted c7Session c7World = .ok c7World :=
  ⟨by decide,
   (checkout_completed_missing_metadata_is_noop c7Session c7World _ rfl
      (Or.inr (Or.inl (by decide)))).1⟩

/-! Claim C2. -/

/-- An empty provider state for the C2 scenario. -/
def c2Stripe : StripeState :=
  { customers := [], products := [], prices := [], subscriptions := []
    checkoutSessions := 0, nextId := 0 }

/-- A local invoice row already marked paid. -/
def c2Row : InvoiceRow :=
  { id := "i-row", userId := "u1", stripeInvoiceId := "in_1", amountPaid := 500
    currency := "usd", status := "paid", invoicePdfUrl := none
    periodStart := none, periodEnd := none, createdAt := 1 }

/-- A configured world holding exactly the paid C2 row. -/
def c2World : World :=
  { db := { users := [], plans := [], subscriptions := [], invoices := [c2Row] }
    stripe := some c2Stripe, now := 9, uuidCounter := 0 }

/-- A payment-failed event for that invoice reporting status `open`. -/
def c2Event : StripeInvoice :=
  { id := "in_1", customer := some "cus_1", amountPaid := 500, currency := "usd"
    status := some "open", invoicePdf := none, periodStart := none
    periodEnd := none, subscription := none }

/-- C2 counterexample: on a local invoice already stored as `paid`, an
`invoice.payment_failed` event reporting `open` moves the stored status
back to `open` — the status regresses, violating the claimed
monotonicity. -/
theorem paid_invoice_regresses_on_payment_failed :
    c2World.db.invoices.map (fun r => r.status) = ["paid"] ∧
    (handleInvoicePaymentFailed c2Event c2World).toOption.map
      (fun x => x.db.invoices.map (fun r => r.status)) = some ["open"] := by
  decide

/-- C2 (amended): the stored invoice status simply follows the last event
with no monotonicity guard: payment-succeeded on an existing row
unconditionally stores `paid`, and payment-failed on an existing row
unconditionally stores the event's reported status (default `open`) —
including moving an already-paid row back to `open`. -/
theorem invoice_payment_events_overwrite_status
    (inv : StripeInvoice) (w : World) (st : StripeState) (row : InvoiceRow)
    (hst : w.stripe = some st)
    (h : w.db.invoices.find? (fun r => r.stripeInvoiceId == inv.id) = some row) :
    (∃ w', handleInvoicePaymentSucceeded inv w = .ok w' ∧
       w'.db.invoices.find? (fun r => r.stripeInvoiceId == inv.id) =
         some { row with
                  status := "paid"
                  amountPaid := inv.amountPaid
                  invoicePdfUrl := jsOrNullStr inv.invoicePdf }) ∧
    (∃ w', handleInvoicePaymentFailed inv w = .ok w' ∧
       w'.db.invoices.find? (fun r => r.stripeInvoiceId == inv.id) =
         some { row with status := jsOrStr inv.status "open" }) := by
  constructor
  · have hfind :
        (updateWhere (fun r => r.id == row.id)
          (fun r => { r with
              status := "paid"
              amountPaid := inv.amountPaid
              invoicePdfUrl := jsOrNullStr inv.invoicePdf })
          w.db.invoices).find? (fun r => r.stripeInvoiceId == inv.id) =
        some { row with
                 status := "paid"
                 amountPaid := inv.amountPaid
                 invoicePdfUrl := jsOrNullStr inv.invoicePdf } := by
      rw [find?_updateWhere_of_pres (fun r => r.stripeInvoiceId == inv.id)
            (fun r => r.id == row.id)
            (fun r => { r with
                status := "paid"
                amountPaid := inv.amountPaid
                invoicePdfUrl := jsOrNullStr inv.invoicePdf })
            (fun r => rfl) w.db.invoices, h]
      simp
    cases hsub : inv.subscription with
    | none =>
      have e1 : handleInvoicePaymentSucceeded inv w =
          .ok { w with db := { w.db with invoices :=
              (updateWhere (fun r => r.id == row.id)
                (fun r => { r with
                    status := "paid"
                    amountPaid := inv.amountPaid
                    invoicePdfUrl := jsOrNullStr inv.invoicePdf })
                w.db.invoices) } } := by
        unfold handleInvoicePaymentSucceeded
        rw [hst, h, hsub]
      exact ⟨_, e1, hfind⟩
    | some sid =>
      have e1 : handleInvoicePaymentSucceeded inv w =
          .ok (refreshSubscriptionAfterPayment st sid
            { w with db := { w.db with invoices :=
              (updateWhere (fun r => r.id == row.id)
                (fun r => { r with
                    status := "paid"
                    amountPaid := inv.amountPaid
                    invoicePdfUrl := jsOrNullStr inv.invoicePdf })
                w.db.invoices) } }) := by
        unfold handleInvoicePaymentSucceeded
        rw [hst, h, hsub]
      refine ⟨_, e1, ?_⟩
      rw [refreshSubscriptionAfterPayment_invoices]
      exact hfind
  · have hfind :
        (updateWhere (fun r => r.id == row.id)
          (fun r => { r with status := jsOrStr inv.status "open" })
          w.db.invoices).find? (fun r => r.stripeInvoiceId == inv.id) =
        some { row with status := jsOrStr inv.status "open" } := by
      rw [find?_updateWhere_of_pres (fun r => r.stripeInvoiceId == inv.id)
            (fun r => r.id == row.id)
            (fun r => { r with status := jsOrStr inv.status "open" })
            (fun r => rfl) w.db.invoices, h]
      simp
    cases hsub : inv.subscription with
    | none =>
      have e1 : handleInvoicePaymentFailed inv w =
          .ok { w with db := { w.db with invoices :=
              (updateWhere (fun r => r.id == row.id)
                (fun r => { r with status := jsOrStr inv.status "open" })
                w.db.invoices) } } := by
        unfold handleInvoicePaymentFailed
        rw [hst, h, hsub]
      exact ⟨_, e1, hfind⟩
    | some sid =>
      have e1 : handleInvoicePaymentFailed inv w =
          .ok (refreshSubscriptionAfterFailure st sid
            { w with db := { w.db with invoices :=
              (updateWhere (fun r => r.id == row.id)
                (fun r => { r with status := jsOrStr inv.status "open" })
                w.db.invoices) } }) := by
        unfold handleInvoicePaymentFailed
        rw [hst, h, hsub]
      refine ⟨_, e1, ?_⟩
      rw [refreshSubscriptionAfterFailure_invoices]
      exact hfind

/-- Witness for the amended C2 theorem at the concrete paid-row world. -/
theorem invoice_payment_events_overwrite_status_witness :
    c2World.stripe = some c2Stripe ∧
    c2World.db.invoices.find? (fun r => r.stripeInvoiceId == c2Event.id) = some c2Row ∧
    (∃ w', handleInvoicePaymentFailed c2Event c2World = .ok w' ∧
       w'.db.invoices.find? (fun r => r.stripeInvoiceId == c2Event.id) =
         some { c2Row with status := jsOrStr c2Event.status "open" }) :=
  ⟨rfl, by decide,
   (invoice_payment_events_overwrite_status c2Event c2World c2Stripe c2Row rfl
      (by decide)).2⟩

/-! Claim C1. -/

/-- Provider state with the customer owning the C1 invoice. -/
def c1Stripe : StripeState :=
  { customers := [{ id := "cus_1", email := "u1@example.com",
                    metadataUserId := some "u1", deleted := false }]
    products := [], prices := [], subscriptions := []
    checkoutSessions := 0, nextId := 0 }

/-- A configured world that has never seen any invoice. -/
def c1World : World :=
  { db := { users := [], plans := [], subscriptions := [], invoices := [] }
    stripe := some c1Stripe, now := 7, uuidCounter := 0 }

/-- A payment-succeeded event whose invoice object reports status `open`. -/
def c1Event : StripeInvoice :=
  { id := "in_1", customer := some "cus_1", amountPaid := 500, currency := "usd"
    status := some "open", invoicePdf := none, periodStart := none
    periodEnd := none, subscription := none }

/-- C1 counterexample: for an invoice id never seen locally, the handler
creates the row through the invoice-created path and performs no mark-paid
update afterwards; with the event reporting `open`, the final stored
status is `open`, not `paid`. -/
theorem payment_succeeded_unseen_invoice_not_marked_paid :
    c1World.db.invoices = [] ∧
    (handleInvoicePaymentSucceeded c1Event c1World).toOption.map
      (fun x => x.db.invoices.map (fun r => r.status)) = some ["open"] ∧
    (handleInvoicePaymentSucceeded c1Event c1World).toOption.map
      (fun x => x.db.invoices.map (fun r => r.status)) ≠ some ["paid"] := by
  decide

/-- C1 (amended): for an invoice id with no local row, payment-succeeded
creates the row via the invoice-created path with status derived from the
event (the event's status, `draft` when absent) and performs no subsequent
mark-paid update — the final stored status equals the event's reported
status, so it is `paid` only when the event itself reports `paid`. -/
theorem payment_succeeded_lazy_create_keeps_event_status
    (inv : StripeInvoice) (w : World) (st : StripeState) (custId : String)
    (cust : StripeCustomer) (userId : String)
    (hst : w.stripe = some st)
    (hcust : inv.customer = some custId)
    (hfound : st.customers.find? (fun c => c.id == custId) = some cust)
    (hdel : cust.deleted = false)
    (huid : cust.metadataUserId = some userId)
    (hnone : w.db.invoices.find? (fun r => r.stripeInvoiceId == inv.id) = none) :
    ∃ w', handleInvoicePaymentSucceeded inv w = .ok w' ∧
      w'.db.invoices.find? (fun r => r.stripeInvoiceId == inv.id) =
        some (invoiceRowOfEvent inv userId w) ∧
      (invoiceRowOfEvent inv userId w).status = jsOrStr inv.status "draft" := by
  have hic : handleInvoiceCreated inv w =
      .ok { w with
              db := { w.db with invoices :=
                w.db.invoices ++ [invoiceRowOfEvent inv userId w] }
              uuidCounter := w.uuidCounter + 1 } := by
    unfold handleInvoiceCreated
    simp only [hst, hcust, hfound, huid, hdel, hnone, Bool.false_eq_true, if_false]
  have hfind :
      (w.db.invoices ++ [invoiceRowOfEvent inv userId w]).find?
        (fun r => r.stripeInvoiceId == inv.id) =
      some (invoiceRowOfEvent inv userId w) := by
    rw [List.find?_append, hnone]
    simp [invoiceRowOfEvent]
  cases hsub : inv.subscription with
  | none =>
    have e1 : handleInvoicePaymentSucceeded inv w =
        .ok { w with
                db := { w.db with invoices :=
                  w.db.invoices ++ [invoiceRowOfEvent inv userId w] }
                uuidCounter := w.uuidCounter + 1 } := by
      unfold handleInvoicePaymentSucceeded
      rw [hnone, hic, hsub, hst]
    exact ⟨_, e1, hfind, rfl⟩
  | some sid =>
    have e1 : handleInvoicePaymentSucceeded inv w =
        .ok (refreshSubscriptionAfterPayment st sid
          { w with
              db := { w.db with invoices :=
                w.db.invoices ++ [invoiceRowOfEvent inv userId w] }
              uuidCounter := w.uuidCounter + 1 }) := by
      unfold handleInvoicePaymentSucceeded
      rw [hnone, hic, hsub, hst]
    refine ⟨_, e1, ?_, rfl⟩
    rw [refreshSubscriptionAfterPayment_invoices]
    exact hfind

/-- Witness for the amended C1 theorem at the concrete never-seen invoice
whose event reports `open`. -/
theorem payment_succeeded_lazy_create_keeps_event_status_witness :
    c1World.db.invoices.find? (fun r => r.stripeInvoiceId == c1Event.id) = none ∧
    (∃ w', handleInvoicePaymentSucceeded c1Event c1World = .ok w' ∧
       w'.db.invoices.find? (fun r => r.stripeInvoiceId == c1Event.id) =
         some (invoiceRowOfEvent c1Event "u1" c1World) ∧
       (invoiceRowOfEvent c1Event "u1" c1World).status = jsOrStr c1Event.status "draft") :=
  ⟨by decide,
   payment_succeeded_lazy_create_keeps_event_status c1Event c1World c1Stripe "cus_1"
     { id := "cus_1", email := "u1@example.com", metadataUserId := some "u1", deleted := false }
     "u1" rfl rfl (by decide) rfl rfl (by decide)⟩

/-! Claim C5. -/

/-- A plan whose recorded yearly external price id is `py`. -/
def c5Plan : PlanRow :=
  { id := "p1", name := "Starter", slug := "starter", description := none
    monthlyPrice := 1900, yearlyPrice := 18200, features := "[]"
    maxUsers := none, maxTeamMembers := none, isPopular := false, isActive := true
    sortOrder := 1, stripePriceIdMonthly := some "pm", stripePriceIdYearly := some "py"
    createdAt := 0, updatedAt := 0 }

/-- A local subscription row currently on the monthly interval. -/
def c5Row : SubscriptionRow :=
  { id := "s1", userId := "u1", stripeSubscriptionId := "sub_1", status := "active"
    plan := "starter", planId := some "p1", billingInterval := some "monthly"
    currentPeriodStart := some 1, currentPeriodEnd := some 2
    cancelAtPeriodEnd := false, createdAt := 0, updatedAt := 0 }

/-- The world holding the C5 plan and subscription row. -/
def c5World : World :=
  { db := { users := [], plans := [c5Plan], subscriptions := [c5Row], invoices := [] }
    stripe := none, now := 11, uuidCounter := 0 }

/-- A subscription-updated event whose price id equals the plan's yearly
price id but whose price object reports a `month` recurring interval. -/
def c5Event : StripeSubscription :=
  { id := "sub_1", customer := "cus_1", status := "active", created := 0
    priceId := some "py", priceRecurringInterval := some "month"
    currentPeriodStart := 5, currentPeriodEnd := 6, cancelAtPeriodEnd := false }

/-- C5 counterexample: the event's price id equals the plan's yearly price
id and plan re-resolution does fire (planId is set), yet the stored
billing interval ends up `monthly`, because the handler derives the
interval from the price object's recurring interval, not from which plan
column matched. -/
theorem subscription_updated_yearly_match_can_store_monthly :
    c5Event.priceId = c5Plan.stripePriceIdYearly ∧
    c5World.db.subscriptions.map (fun r => r.billingInterval) = [some "monthly"] ∧
    (handleSubscriptionUpdated c5Event c5World).db.subscriptions.map
      (fun r => r.planId) = [some "p1"] ∧
    (handleSubscriptionUpdated c5Event c5World).db.subscriptions.map
      (fun r => r.billingInterval) = [some "monthly"] ∧
    (handleSubscriptionUpdated c5Event c5World).db.subscriptions.map
      (fun r => r.billingInterval) ≠ [some "yearly"] := by
  decide

/-- C5 (amended): when additionally the event's price object reports a
`year` recurring interval and the plan is the first plan whose monthly or
yearly price id equals the event's price id, the handler stores
billingInterval `yearly` and that plan's id and slug on the row (even if
the previous local interval was `monthly`). -/
theorem subscription_updated_reresolves_plan_on_year_interval
    (sub : StripeSubscription) (w : World) (row : SubscriptionRow) (pid : String) (plan : PlanRow)
    (hrow : w.db.subscriptions.find? (fun r => r.stripeSubscriptionId == sub.id) = some row)
    (hpid : jsOrNullStr sub.priceId = some pid)
    (hplan : w.db.plans.find?
        (fun p => p.stripePriceIdMonthly == some pid || p.stripePriceIdYearly == some pid) =
      some plan)
    (hyear : sub.priceRecurringInterval = some "year") :
    (handleSubscriptionUpdated sub w).db.subscriptions.find?
        (fun r => r.stripeSubscriptionId == sub.id) =
      some { row with
               status := sub.status
               currentPeriodStart := some sub.currentPeriodStart
               currentPeriodEnd := some sub.currentPeriodEnd
               cancelAtPeriodEnd := sub.cancelAtPeriodEnd
               billingInterval := some "yearly"
               updatedAt := w.now
               plan := plan.slug
               planId := some plan.id } := by
  have e : handleSubscriptionUpdated sub w =
      { w with db := { w.db with subscriptions :=
          (updateWhere (fun r => r.id == row.id)
            (fun r => { r with
                status := sub.status
                currentPeriodStart := some sub.currentPeriodStart
                currentPeriodEnd := some sub.currentPeriodEnd
                cancelAtPeriodEnd := sub.cancelAtPeriodEnd
                billingInterval := some "yearly"
                updatedAt := w.now
                plan := plan.slug
                planId := some plan.id })
            w.db.subscriptions) } } := by
    unfold handleSubscriptionUpdated
    simp only [hrow, hyear, hpid, hplan, beq_self_eq_true, if_true]
  rw [e]
  show (updateWhere (fun r => r.id == row.id)
      (fun r => { r with
          status := sub.status
          currentPeriodStart := some sub.currentPeriodStart
          currentPeriodEnd := some sub.currentPeriodEnd
          cancelAtPeriodEnd := sub.cancelAtPeriodEnd
          billingInterval := some "yearly"
          updatedAt := w.now
          plan := plan.slug
          planId := some plan.id })
      w.db.subscriptions).find? (fun r => r.stripeSubscriptionId == sub.id) = _
  rw [find?_updateWhere_of_pres (fun r => r.stripeSubscriptionId == sub.id)
        (fun r => r.id == row.id)
        (fun r => { r with
            status := sub.status
            currentPeriodStart := some sub.currentPeriodStart
            currentPeriodEnd := some sub.currentPeriodEnd
            cancelAtPeriodEnd := sub.cancelAtPeriodEnd
            billingInterval := some "yearly"
            updatedAt := w.now
            plan := plan.slug
            planId := some plan.id })
        (fun r => rfl) w.db.subscriptions, hrow]
  simp

/-- An event like the C5 one but with the price correctly reporting the
`year` recurring interval. -/
def c5EventYear : StripeSubscription :=
  { id := "sub_1", customer := "cus_1", status := "active", created := 0
    priceId := some "py", priceRecurringInterval := some "year"
    currentPeriodStart := 5, currentPeriodEnd := 6, cancelAtPeriodEnd := false }

/-- Witness for the amended C5 theorem at the concrete year-interval
event. -/
theorem subscription_updated_reresolves_plan_on_year_interval_witness :
    c5World.db.subscriptions.find?
      (fun r => r.stripeSubscriptionId == c5EventYear.id) = some c5Row ∧
    jsOrNullStr c5EventYear.priceId = some "py" ∧
    (handleSubscriptionUpdated c5EventYear c5World).db.subscriptions.find?
        (fun r => r.stripeSubscriptionId == c5EventYear.id) =
      some { c5Row with
               status := c5EventYear.status
               currentPeriodStart := some c5EventYear.currentPeriodStart
               currentPeriodEnd := some c5EventYear.currentPeriodEnd
               cancelAtPeriodEnd := c5EventYear.cancelAtPeriodEnd
               billingInterval := some "yearly"
               updatedAt := c5World.now
               plan := c5Plan.slug
               planId := some c5Plan.id } :=
  ⟨by decide, by decide,
   subscription_updated_reresolves_plan_on_year_interval c5EventYear c5World c5Row "py"
     c5Plan (by decide) (by decide) (by decide) rfl⟩

/-! Claim C9. -/

/-- Inserting into the sort-order insertion sort grows the length by 1. -/
theorem length_insertBySortOrderAsc (p : PlanRow) (l : List PlanRow) :
    (insertBySortOrderAsc p l).length = l.length + 1 := by
  induction l with
  | nil => rfl
  | cons q qs ih =>
    unfold insertBySortOrderAsc
    by_cases h : p.sortOrder ≤ q.sortOrder
    · simp [h]
    · simp [h, ih]

/-- The sort used by `getAllPlans` preserves length. -/
theorem length_sortBySortOrder (l : List PlanRow) :
    (l.foldr insertBySortOrderAsc []).length = l.length := by
  induction l with
  | nil => rfl
  | cons p t ih => simp [List.foldr, length_insertBySortOrderAsc, ih]

/-- Seeding does nothing as soon as any plan exists. -/
theorem seedDefaultPlans_noop (w : World) (h : w.db.plans ≠ []) :
    seedDefaultPlans w = w := by
  have hpos : (getAllPlans w).length > 0 := by
    unfold getAllPlans
    rw [length_sortBySortOrder]
    exact List.length_pos.mpr h
  unfold seedDefaultPlans
  rw [if_pos hpos]

/-- `createPlan` without provider sync just appends the built row. -/
theorem createPlan_false (input : CreatePlanInput) (w : World) :
    createPlan input false w =
      { w with
          db := { w.db with plans :=
            w.db.plans ++ [planRowOfInput input (uuid w.uuidCounter) w.now] }
          uuidCounter := w.uuidCounter + 1 } := by
  unfold createPlan
  simp

/-- C9: seeding is a no-op whenever at least one plan already exists
(regardless of which slugs exist); on an empty catalog it inserts exactly
the three fixed plans with slugs starter, professional and enterprise; and
running it twice leaves the catalog identical to running it once. -/
theorem seed_default_plans_spec (w : World) :
    (w.db.plans ≠ [] → seedDefaultPlans w = w) ∧
    (w.db.plans = [] →
       (seedDefaultPlans w).db.plans.map (fun p => p.slug) =
         ["starter", "professional", "enterprise"]) ∧
    seedDefaultPlans (seedDefaultPlans w) = seedDefaultPlans w := by
  have hseed : w.db.plans = [] →
      (seedDefaultPlans w).db.plans =
        [planRowOfInput starterSeed (uuid w.uuidCounter) w.now,
         planRowOfInput professionalSeed (uuid (w.uuidCounter + 1)) w.now,
         planRowOfInput enterpriseSeed (uuid (w.uuidCounter + 2)) w.now] := by
    intro h
    have hz : ¬((getAllPlans w).length > 0) := by
      unfold getAllPlans
      rw [length_sortBySortOrder, h]
      simp
    unfold seedDefaultPlans
    rw [if_neg hz]
    simp only [createPlan_false]
    simp [h]
  refine ⟨seedDefaultPlans_noop w, ?_, ?_⟩
  · intro h
    rw [hseed h]
    simp [planRowOfInput, starterSeed, professionalSeed, enterpriseSeed]
  · by_cases h : w.db.plans = []
    · have h3 : (seedDefaultPlans w).db.plans ≠ [] := by
        rw [hseed h]
        simp
      exact seedDefaultPlans_noop _ h3
    · rw [seedDefaultPlans_noop w h]
      exact seedDefaultPlans_noop w h

/-- A world with an empty plan catalog. -/
def c9World : World :=
  { db := { users := [], plans := [], subscriptions := [], invoices := [] }
    stripe := none, now := 3, uuidCounter := 0 }

/-- Witness for C9 at the concrete empty catalog. -/
theorem seed_default_plans_spec_witness :
    c9World.db.plans = [] ∧
    (seedDefaultPlans c9World).db.plans.map (fun p => p.slug) =
      ["starter", "professional", "enterprise"] ∧
    seedDefaultPlans (seedDefaultPlans c9World) = seedDefaultPlans c9World :=
  ⟨rfl, (seed_default_plans_spec c9World).2.1 rfl, (seed_default_plans_spec c9World).2.2⟩

/-! Claim C8. -/

/-- C8: syncing a plan fails with the `NotConfigured` error (the thrown
`Stripe is not configured`, surfaced by the route as a 500 with that
message) whenever no provider credentials are set, and — when configured —
fails with `NotFound` (the service returns `null`, surfaced by the route
as 404 `Plan not found`) whenever the plan id is unknown; in both cases
the whole world is returned unchanged: no external product or price is
created and no plan record is modified. When both conditions hold at once
the configuration check runs first. -/
theorem sync_plan_notconfigured_and_notfound (pid : String) (w : World) :
    (w.stripe = none →
       syncStripeRoute pid w = (500, "Stripe is not configured", w)) ∧
    (∀ st, w.stripe = some st →
       w.db.plans.find? (fun p => p.id == pid) = none →
       syncStripeRoute pid w = (404, "Plan not found", w)) := by
  constructor
  · intro h
    unfold syncStripeRoute syncPlanWithStripe
    rw [h]
  · intro st hst hplan
    unfold syncStripeRoute syncPlanWithStripe
    rw [hst, hplan]

/-- An unconfigured world holding one plan. -/
def c8NoStripeWorld : World :=
  { db := { users := []
            plans := [{ id := "p1", name := "Starter", slug := "starter", description := none
                        monthlyPrice := 1900, yearlyPrice := 18200, features := "[]"
                        maxUsers := none, maxTeamMembers := none, isPopular := false
                        isActive := true, sortOrder := 1, stripePriceIdMonthly := none
                        stripePriceIdYearly := none, createdAt := 0, updatedAt := 0 }]
            subscriptions := [], invoices := [] }
    stripe := none, now := 0, uuidCounter := 0 }

/-- A configured world with an empty plan catalog. -/
def c8ConfiguredWorld : World :=
  { db := { users := [], plans := [], subscriptions := [], invoices := [] }
    stripe := some { customers := [], products := [], prices := [], subscriptions := []
                     checkoutSessions := 0, nextId := 0 }
    now := 0, uuidCounter := 0 }

/-- Witness for C8: both failure modes at concrete worlds. -/
theorem sync_plan_notconfigured_and_notfound_witness :
    c8NoStripeWorld.stripe = none ∧
    syncStripeRoute "p1" c8NoStripeWorld =
      (500, "Stripe is not configured", c8NoStripeWorld) ∧
    c8ConfiguredWorld.db.plans.find? (fun p => p.id == "missing") = none ∧
    syncStripeRoute "missing" c8ConfiguredWorld =
      (404, "Plan not found", c8ConfiguredWorld) :=
  ⟨rfl,
   (sync_plan_notconfigured_and_notfound "p1" c8NoStripeWorld).1 rfl,
   by decide,
   (sync_plan_notconfigured_and_notfound "missing" c8ConfiguredWorld).2 _ rfl (by decide)⟩

/-! Claim C4. -/

/-- Duplicate-subscription cleanup never touches the checkout-session
counter: it only cancels provider subscriptions. -/
theorem cleanup_checkoutSessions (cid : String) (st : StripeState) :
    (cleanupDuplicateSubscriptions cid st).checkoutSessions = st.checkoutSessions := by
  unfold cleanupDuplicateSubscriptions
  by_cases h : (List.filter (fun s => s.customer == cid && s.status == "active")
      st.subscriptions).length ≤ 1
  · simp [h]
  · simp only [h, if_false]
    split <;> rfl

/-- C4: for a customer who already has an active provider subscription (a
resolvable plan with a configured price, and a recorded customer id),
createCheckoutSession first runs duplicate-subscription cleanup and then
fails with the distinguished Conflict signal `EXISTING_SUBSCRIPTION`; it
creates no checkout session (the session counter is unchanged) and the
local database — in particular the subscriptions table — is returned
unchanged (0 new rows). -/
theorem checkout_conflict_on_existing_subscription
    (p : CheckoutParams) (w : World) (st : StripeState) (plan : PlanRow) (user : UserRow)
    (cid : String) (sub : StripeSubscription)
    (hst : w.stripe = some st)
    (hplan : w.db.plans.find? (fun pl => pl.id == p.planId) = some plan)
    (hprice : truthyStr (if p.billingInterval == "monthly" then plan.stripePriceIdMonthly
        else plan.stripePriceIdYearly) = true)
    (huser : w.db.users.find? (fun u => u.id == p.userId) = some user)
    (hcid : user.stripeCustomerId = some cid)
    (hcidne : (cid == "") = false)
    (hactive : getActiveStripeSubscription cid st = some sub) :
    createCheckoutSession p w =
      (.error "EXISTING_SUBSCRIPTION",
       { w with stripe := some (cleanupDuplicateSubscriptions cid st) }) ∧
    (cleanupDuplicateSubscriptions cid st).checkoutSessions = st.checkoutSessions ∧
    ({ w with stripe := some (cleanupDuplicateSubscriptions cid st) } : World).db =
      w.db := by
  have hc : truthyStr (some cid) = true := by
    simp [truthyStr, hcidne]
  refine ⟨?_, cleanup_checkoutSessions cid st, rfl⟩
  unfold createCheckoutSession getOrCreateCustomer
  simp only [hst, hplan, hprice, huser, hcid, hc, hactive, Bool.false_eq_true,
    Bool.not_true, Bool.not_false, Option.getD_some, if_false, if_true]

/-- The plan purchased in the C4 scenario, with both prices configured. -/
def c4Plan : PlanRow :=
  { id := "p1", name := "Starter", slug := "starter", description := none
    monthlyPrice := 1900, yearlyPrice := 18200, features := "[]"
    maxUsers := none, maxTeamMembers := none, isPopular := false, isActive := true
    sortOrder := 1, stripePriceIdMonthly := some "pm", stripePriceIdYearly := some "py"
    createdAt := 0, updatedAt := 0 }

/-- The C4 user, with a recorded provider customer id. -/
def c4User : UserRow :=
  { id := "u1", email := "u1@example.com", stripeCustomerId := some "cus_1" }

/-- The customer's already-active provider subscription. -/
def c4Sub : StripeSubscription :=
  { id := "sub_1", customer := "cus_1", status := "active", created := 1
    priceId := some "pm", priceRecurringInterval := some "month"
    currentPeriodStart := 0, currentPeriodEnd := 10, cancelAtPeriodEnd := false }

/-- Provider state holding that one active subscription. -/
def c4Stripe : StripeState :=
  { customers := [{ id := "cus_1", email := "u1@example.com",
                    metadataUserId := some "u1", deleted := false }]
    products := [], prices := [], subscriptions := [c4Sub]
    checkoutSessions := 0, nextId := 5 }

/-- The C4 world. -/
def c4World : World :=
  { db := { users := [c4User], plans := [c4Plan], subscriptions := [], invoices := [] }
    stripe := some c4Stripe, now := 0, uuidCounter := 0 }

/-- The repeated checkout call of the C4 scenario. -/
def c4Params : CheckoutParams :=
  { userId := "u1", userEmail := "u1@example.com", planId := "p1"
    billingInterval := "monthly" }

/-- Witness for C4 at the concrete one-active-subscription customer. -/
theorem checkout_conflict_on_existing_subscription_witness :
    getActiveStripeSubscription "cus_1" c4Stripe = some c4Sub ∧
    createCheckoutSession c4Params c4World =
      (.error "EXISTING_SUBSCRIPTION",
       { c4World with stripe := some (cleanupDuplicateSubscriptions "cus_1" c4Stripe) }) :=
  ⟨by decide,
   (checkout_conflict_on_existing_subscription c4Params c4World c4Stripe c4Plan c4User
      "cus_1" c4Sub rfl (by decide) (by decide) (by decide) rfl (by decide) (by decide)).1⟩

/-! Claim C3. -/

/-- Number of provider prices recorded for a given plan id and recurring
interval. -/
def priceCount (interval pid : String) (prices : List StripePrice) : Nat :=
  (prices.filter
    (fun pr => pr.metadataPlanId == some pid && pr.recurringInterval == interval)).length

/-- The product half of a sync never touches prices. -/
theorem syncProductStep_prices (pid : String) (plan : PlanRow) (st : StripeState) :
    ((syncProductStep pid plan st).2).prices = st.prices := by
  unfold syncProductStep
  split <;> rfl

/-- A provider-created price id is never the empty string, hence truthy. -/
theorem priceId_truthy (n : Nat) : truthyStr (some (stripeId "price_" n)) = true := by
  simp only [truthyStr, stripeId]
  simp only [Bool.not_eq_true']
  rw [beq_eq_false_iff_ne]
  intro h
  have := congrArg String.data h
  simp at this

/-- Re-wrapping a truthy optional string through `getD` is the identity. -/
theorem truthy_some_getD (r : Option String) (h : truthyStr r = true) :
    some (r.getD "") = r := by
  cases r with
  | none => simp [truthyStr] at h
  | some s => simp

/-- `getD` of a truthy optional string is itself truthy. -/
theorem truthy_getD (r : Option String) (h : truthyStr r = true) :
    truthyStr (some (r.getD "")) = true := by
  cases r with
  | none => simp [truthyStr] at h
  | some s => simpa using h

/-- A truthy recorded price id short-circuits price creation. -/
theorem priceFor_truthy (r : Option String) (mk : StripeState → String × StripeState)
    (st : StripeState) (h : truthyStr r = true) :
    priceFor r mk st = (r.getD "", st) := by
  simp [priceFor, h]

/-- A falsy recorded price id falls through to price creation. -/
theorem priceFor_falsy (r : Option String) (mk : StripeState → String × StripeState)
    (st : StripeState) (h : truthyStr r = false) :
    priceFor r mk st = mk st := by
  simp [priceFor, h]

/-- Creating a price for an interval bumps that interval's count by one. -/
theorem priceCount_create_same (i mi prodId pid : String) (amt : Int) (st : StripeState) :
    priceCount i pid ((createPriceStep prodId pid amt i mi st).2).prices =
      priceCount i pid st.prices + 1 := by
  simp [priceCount, createPriceStep, List.filter_append]

/-- Creating a price for one interval leaves a different interval's count
unchanged. -/
theorem priceCount_create_other (i i2 mi prodId pid : String) (amt : Int) (st : StripeState)
    (hne : (i2 == i) = false) :
    priceCount i pid ((createPriceStep prodId pid amt i2 mi st).2).prices =
      priceCount i pid st.prices := by
  simp [priceCount, createPriceStep, List.filter_append, hne]

/-- Creating a yearly price leaves the monthly count unchanged. -/
theorem priceCount_create_year_for_month (mi prodId pid : String) (amt : Int) (st : StripeState) :
    priceCount "month" pid ((createPriceStep prodId pid amt "year" mi st).2).prices =
      priceCount "month" pid st.prices :=
  priceCount_create_other "month" "year" mi prodId pid amt st (by decide)

/-- Creating a monthly price leaves the yearly count unchanged. -/
theorem priceCount_create_month_for_year (mi prodId pid : String) (amt : Int) (st : StripeState) :
    priceCount "year" pid ((createPriceStep prodId pid amt "month" mi st).2).prices =
      priceCount "year" pid st.prices :=
  priceCount_create_other "year" "month" mi prodId pid amt st (by decide)

/-- With a truthy recorded monthly id, the sync keeps it verbatim. -/
theorem syncSteps_fst (pid : String) (plan : PlanRow) (st : StripeState)
    (hm : truthyStr plan.stripePriceIdMonthly = true) :
    (syncSteps pid plan st).1 = plan.stripePriceIdMonthly.getD "" := by
  unfold syncSteps
  simp [priceFor, hm]

/-- With a truthy recorded yearly id, the sync keeps it verbatim. -/
theorem syncSteps_snd (pid : String) (plan : PlanRow) (st : StripeState)
    (hy : truthyStr plan.stripePriceIdYearly = true) :
    (syncSteps pid plan st).2.1 = plan.stripePriceIdYearly.getD "" := by
  unfold syncSteps
  simp [priceFor, hy]

/-- With both price ids recorded, a sync performs the product step only. -/
theorem syncSteps_truthy_state (pid : String) (plan : PlanRow) (st : StripeState)
    (hm : truthyStr plan.stripePriceIdMonthly = true)
    (hy : truthyStr plan.stripePriceIdYearly = true) :
    (syncSteps pid plan st).2.2 = (syncProductStep pid plan st).2 := by
  unfold syncSteps
  simp [priceFor, hm, hy]

/-- The monthly price id a sync persists is always truthy (a kept truthy
id, or a freshly created provider id). -/
theorem syncSteps_fst_truthy (pid : String) (plan : PlanRow) (st : StripeState) :
    truthyStr (some (syncSteps pid plan st).1) = true := by
  by_cases hm : truthyStr plan.stripePriceIdMonthly = true
  · rw [syncSteps_fst pid plan st hm]
    exact truthy_getD _ hm
  · simp only [Bool.not_eq_true] at hm
    simp [syncSteps, priceFor, hm, createPriceStep, priceId_truthy]

/-- The yearly price id a sync persists is always truthy. -/
theorem syncSteps_snd_truthy (pid : String) (plan : PlanRow) (st : StripeState) :
    truthyStr (some (syncSteps pid plan st).2.1) = true := by
  by_cases hy : truthyStr plan.stripePriceIdYearly = true
  · rw [syncSteps_snd pid plan st hy]
    exact truthy_getD _ hy
  · simp only [Bool.not_eq_true] at hy
    simp [syncSteps, priceFor, hy, createPriceStep, priceId_truthy]

/-- One sync changes the plan's monthly price count by one exactly when
no monthly id was recorded, and otherwise not at all. -/
theorem syncSteps_priceCount_month (pid : String) (plan : PlanRow) (st : StripeState) :
    priceCount "month" pid (syncSteps pid plan st).2.2.prices =
      priceCount "month" pid st.prices +
        (if truthyStr plan.stripePriceIdMonthly then 0 else 1) := by
  by_cases hm : truthyStr plan.stripePriceIdMonthly = true <;>
    by_cases hy : truthyStr plan.stripePriceIdYearly = true <;>
    simp only [Bool.not_eq_true] at hm hy <;>
    simp [syncSteps, priceFor, hm, hy, priceCount_create_same,
      priceCount_create_year_for_month, syncProductStep_prices]

/-- One sync changes the plan's yearly price count by one exactly when no
yearly id was recorded, and otherwise not at all. -/
theorem syncSteps_priceCount_year (pid : String) (plan : PlanRow) (st : StripeState) :
    priceCount "year" pid (syncSteps pid plan st).2.2.prices =
      priceCount "year" pid st.prices +
        (if truthyStr plan.stripePriceIdYearly then 0 else 1) := by
  by_cases hm : truthyStr plan.stripePriceIdMonthly = true <;>
    by_cases hy : truthyStr plan.stripePriceIdYearly = true <;>
    simp only [Bool.not_eq_true] at hm hy <;>
    simp [syncSteps, priceFor, hm, hy, priceCount_create_same,
      priceCount_create_month_for_year, syncProductStep_prices]

/-- The plan row as persisted (and re-read) by a successful sync. -/
def syncUpdatedPlan (pid : String) (plan : PlanRow) (st : StripeState) (now : Nat) : PlanRow :=
  { plan with
      stripePriceIdMonthly := some (syncSteps pid plan st).1
      stripePriceIdYearly := some (syncSteps pid plan st).2.1
      updatedAt := now }

/-- The world after a successful sync of a resolvable plan. -/
def syncUpdatedWorld (pid : String) (plan : PlanRow) (st : StripeState) (w : World) : World :=
  { w with
      db := { w.db with plans :=
        (updateWhere (fun p => p.id == pid)
          (fun p => { p with
              stripePriceIdMonthly := some (syncSteps pid plan st).1
              stripePriceIdYearly := some (syncSteps pid plan st).2.1
              updatedAt := w.now })
          w.db.plans) }
      stripe := some (syncSteps pid plan st).2.2 }

/-- Re-reading the plan after the sync's update returns the updated row. -/
theorem sync_plans_find (pid : String) (w : World) (st : StripeState) (plan : PlanRow)
    (hplan : w.db.plans.find? (fun p => p.id == pid) = some plan) :
    (syncUpdatedWorld pid plan st w).db.plans.find? (fun p => p.id == pid) =
      some (syncUpdatedPlan pid plan st w.now) := by
  have hid : (plan.id == pid) = true := by simpa using List.find?_some hplan
  show (updateWhere (fun p => p.id == pid)
      (fun p => { p with
          stripePriceIdMonthly := some (syncSteps pid plan st).1
          stripePriceIdYearly := some (syncSteps pid plan st).2.1
          updatedAt := w.now })
      w.db.plans).find? (fun p => p.id == pid) = _
  rw [find?_updateWhere_of_pres (fun p => p.id == pid) (fun p => p.id == pid)
        (fun p => { p with
            stripePriceIdMonthly := some (syncSteps pid plan st).1
            stripePriceIdYearly := some (syncSteps pid plan st).2.1
            updatedAt := w.now })
        (fun r => rfl) w.db.plans, hplan]
  simp only [Option.map_some']
  rw [if_pos hid]
  rfl

/-- Closed form of a successful `syncPlanWithStripe` call. -/
theorem syncPlanWithStripe_eq (pid : String) (w : World) (st : StripeState) (plan : PlanRow)
    (hst : w.stripe = some st)
    (hplan : w.db.plans.find? (fun p => p.id == pid) = some plan) :
    syncPlanWithStripe pid w =
      .ok (some (syncUpdatedPlan pid plan st w.now), syncUpdatedWorld pid plan st w) := by
  unfold syncPlanWithStripe
  simp only [hst, hplan]
  rw [show (updateWhere (fun p => p.id == pid)
      (fun p => { p with
          stripePriceIdMonthly := some (syncSteps pid plan st).1
          stripePriceIdYearly := some (syncSteps pid plan st).2.1
          updatedAt := w.now })
      w.db.plans).find? (fun p => p.id == pid) =
      some (syncUpdatedPlan pid plan st w.now) from sync_plans_find pid w st plan hplan]
  rfl

/-- C3: for every resolvable plan, syncing twice in succession returns
identical monthly and yearly external price ids after each call; the
second call creates no price at all (the provider price list is
unchanged); each call creates at most one price per interval; and a price
id already recorded on the plan is returned untouched with no price
created for that interval. -/
theorem sync_twice_idempotent_price_ids
    (pid : String) (w : World) (st : StripeState) (plan : PlanRow)
    (hst : w.stripe = some st)
    (hplan : w.db.plans.find? (fun p => p.id == pid) = some plan) :
    ∃ p₁ w₁ st₁ p₂ w₂ st₂,
      syncPlanWithStripe pid w = .ok (some p₁, w₁) ∧
      w₁.stripe = some st₁ ∧
      syncPlanWithStripe pid w₁ = .ok (some p₂, w₂) ∧
      w₂.stripe = some st₂ ∧
      p₂.stripePriceIdMonthly = p₁.stripePriceIdMonthly ∧
      p₂.stripePriceIdYearly = p₁.stripePriceIdYearly ∧
      st₂.prices = st₁.prices ∧
      priceCount "month" pid st₁.prices ≤ priceCount "month" pid st.prices + 1 ∧
      priceCount "year" pid st₁.prices ≤ priceCount "year" pid st.prices + 1 ∧
      (truthyStr plan.stripePriceIdMonthly = true →
        p₁.stripePriceIdMonthly = plan.stripePriceIdMonthly ∧
        priceCount "month" pid st₁.prices = priceCount "month" pid st.prices) ∧
      (truthyStr plan.stripePriceIdYearly = true →
        p₁.stripePriceIdYearly = plan.stripePriceIdYearly ∧
        priceCount "year" pid st₁.prices = priceCount "year" pid st.prices) := by
  have e1 := syncPlanWithStripe_eq pid w st plan hst hplan
  have hplan1 := sync_plans_find pid w st plan hplan
  have hm1 : truthyStr (syncUpdatedPlan pid plan st w.now).stripePriceIdMonthly = true :=
    syncSteps_fst_truthy pid plan st
  have hy1 : truthyStr (syncUpdatedPlan pid plan st w.now).stripePriceIdYearly = true :=
    syncSteps_snd_truthy pid plan st
  have e2 := syncPlanWithStripe_eq pid (syncUpdatedWorld pid plan st w)
    ((syncSteps pid plan st).2.2) (syncUpdatedPlan pid plan st w.now) rfl hplan1
  refine ⟨syncUpdatedPlan pid plan st w.now, syncUpdatedWorld pid plan st w,
    (syncSteps pid plan st).2.2,
    syncUpdatedPlan pid (syncUpdatedPlan pid plan st w.now) ((syncSteps pid plan st).2.2)
      (syncUpdatedWorld pid plan st w).now,
    syncUpdatedWorld pid (syncUpdatedPlan pid plan st w.now) ((syncSteps pid plan st).2.2)
      (syncUpdatedWorld pid plan st w),
    (syncSteps pid (syncUpdatedPlan pid plan st w.now) ((syncSteps pid plan st).2.2)).2.2,
    e1, rfl, e2, rfl, ?_, ?_, ?_, ?_, ?_, ?_, ?_⟩
  · show some ((syncSteps pid (syncUpdatedPlan pid plan st w.now)
        ((syncSteps pid plan st).2.2)).1) = _
    rw [syncSteps_fst _ _ _ hm1]
    exact truthy_some_getD _ hm1
  · show some ((syncSteps pid (syncUpdatedPlan pid plan st w.now)
        ((syncSteps pid plan st).2.2)).2.1) = _
    rw [syncSteps_snd _ _ _ hy1]
    exact truthy_some_getD _ hy1
  · rw [syncSteps_truthy_state _ _ _ hm1 hy1, syncProductStep_prices]
  · rw [syncSteps_priceCount_month]
    split <;> omega
  · rw [syncSteps_priceCount_year]
    split <;> omega
  · intro hm
    constructor
    · show some ((syncSteps pid plan st).1) = _
      rw [syncSteps_fst _ _ _ hm]
      exact truthy_some_getD _ hm
    · rw [syncSteps_priceCount_month, hm]
      simp
  · intro hy
    constructor
    · show some ((syncSteps pid plan st).2.1) = _
      rw [syncSteps_snd _ _ _ hy]
      exact truthy_some_getD _ hy
    · rw [syncSteps_priceCount_year, hy]
      simp

/-- A never-synced plan for the C3 witness. -/
def c3Plan : PlanRow :=
  { id := "p1", name := "Starter", slug := "starter", description := none
    monthlyPrice := 1900, yearlyPrice := 18200, features := "[]"
    maxUsers := none, maxTeamMembers := none, isPopular := false, isActive := true
    sortOrder := 1, stripePriceIdMonthly := none, stripePriceIdYearly := none
    createdAt := 0, updatedAt := 0 }

/-- An empty provider state for the C3 witness. -/
def c3Stripe : StripeState :=
  { customers := [], products := [], prices := [], subscriptions := []
    checkoutSessions := 0, nextId := 0 }

/-- The C3 witness world. -/
def c3World : World :=
  { db := { users := [], plans := [c3Plan], subscriptions := [], invoices := [] }
    stripe := some c3Stripe, now := 2, uuidCounter := 0 }

/-- Witness for C3 at a concrete never-synced plan. -/
theorem sync_twice_idempotent_price_ids_witness :
    c3World.stripe = some c3Stripe ∧
    c3World.db.plans.find? (fun p => p.id == "p1") = some c3Plan ∧
    (∃ p₁ w₁ st₁ p₂ w₂ st₂,
      syncPlanWithStripe "p1" c3World = .ok (some p₁, w₁) ∧
      w₁.stripe = some st₁ ∧
      syncPlanWithStripe "p1" w₁ = .ok (some p₂, w₂) ∧
      w₂.stripe = some st₂ ∧
      p₂.stripePriceIdMonthly = p₁.stripePriceIdMonthly ∧
      p₂.stripePriceIdYearly = p₁.stripePriceIdYearly ∧
      st₂.prices = st₁.prices ∧
      priceCount "month" "p1" st₁.prices ≤ priceCount "month" "p1" c3Stripe.prices + 1 ∧
      priceCount "year" "p1" st₁.prices ≤ priceCount "year" "p1" c3Stripe.prices + 1 ∧
      (truthyStr c3Plan.stripePriceIdMonthly = true →
        p₁.stripePriceIdMonthly = c3Plan.stripePriceIdMonthly ∧
        priceCount "month" "p1" st₁.prices = priceCount "month" "p1" c3Stripe.prices) ∧
      (truthyStr c3Plan.stripePriceIdYearly = true →
        p₁.stripePriceIdYearly = c3Plan.stripePriceIdYearly ∧
        priceCount "year" "p1" st₁.prices = priceCount "year" "p1" c3Stripe.prices)) :=
  ⟨rfl, by decide,
   sync_twice_idempotent_price_ids "p1" c3World c3Stripe c3Plan rfl (by decide)⟩
